import Mathlib

/-!
Verification of the SeedsMetrics loan-metrics derivation logic.

The formulas are embedded from the expected-value computations of
backend/tests/test_loan_metrics_validation.py (the MetricsValidator class):
count_business_days, validate_outstanding_balances,
validate_business_days_calculations, validate_actual_outstanding,
validate_dpd_calculations, validate_repayment_delay_rate and
validate_fimr_tagging.  Monetary amounts (Python Decimal) are modelled as
rationals; calendar dates are modelled as integer day numbers where day 0
is a Monday, so that the weekday of day d is d % 7 (Monday = 0 .. Sunday = 6,
matching Python date.weekday()).
-/

namespace SeedsMetrics

/-- Loan origination terms (columns read from the loans table:
loan_amount, interest_rate, fee_amount, loan_term_days, disbursement_date,
first_payment_due_date).  fee_amount and the dates are nullable. -/
structure LoanTerms where
  principal : ℚ
  interestRate : ℚ
  fee : Option ℚ
  termDays : ℤ
  disbursementDate : Option ℤ
  firstPaymentDueDate : Option ℤ
deriving Repr, DecidableEq

/-- One repayment row (payment_date, principal_paid, interest_paid, fees_paid,
payment_amount, is_reversed); is_reversed is nullable. -/
structure Repayment where
  paymentDate : ℤ
  principalPaid : ℚ
  interestPaid : ℚ
  feesPaid : ℚ
  paymentAmount : ℚ
  isReversed : Option Bool
deriving Repr, DecidableEq

/-- A repayment is kept when is_reversed IS NULL OR is_reversed = FALSE
(the WHERE clause of get_django_repayments / get_metrics_repayments). -/
def notReversed (r : Repayment) : Bool :=
  !(r.isReversed.getD false)

/-- Sums of principal/interest/fees/total paid over the non-reversed
repayments, plus the first and most recent repayment dates (the input list
is ordered by payment_date, as in the SQL ORDER BY). -/
structure RepaymentAggregate where
  totalPrincipalPaid : ℚ
  totalInterestPaid : ℚ
  totalFeesPaid : ℚ
  totalRepayments : ℚ
  firstRepaymentDate : Option ℤ
  lastRepaymentDate : Option ℤ
deriving Repr, DecidableEq

/-- RepaymentAggregator: the sums computed in validate_repayment_totals
(sum of principal_paid / interest_paid / fees_paid / payment_amount over the
filtered repayments), together with the first/last payment dates. -/
def aggregate (rs : List Repayment) : RepaymentAggregate :=
  let active := rs.filter notReversed
  { totalPrincipalPaid := (active.map Repayment.principalPaid).sum
    totalInterestPaid := (active.map Repayment.interestPaid).sum
    totalFeesPaid := (active.map Repayment.feesPaid).sum
    totalRepayments := (active.map Repayment.paymentAmount).sum
    firstRepaymentDate := (active.map Repayment.paymentDate).head?
    lastRepaymentDate := (active.map Repayment.paymentDate).getLast? }

/-- fee_amount with NULL treated as 0
(Decimal(str(fee_amount)) if fee_amount else the Decimal zero). -/
def feeAmount (t : LoanTerms) : ℚ :=
  t.fee.getD 0

/-- repayment_amount = loan_amount * (1 + interest_rate) + fee_amount
(validate_business_days_calculations). -/
def repayment_amount (t : LoanTerms) : ℚ :=
  t.principal * (1 + t.interestRate) + feeAmount t

/-- expected_daily_repayment = repayment_amount / loan_term_days if
loan_term_days > 0 else the Decimal zero. -/
def daily_repayment_amount (t : LoanTerms) : ℚ :=
  if t.termDays > 0 then repayment_amount t / (t.termDays : ℚ) else 0

/-- expected_principal_outstanding = loan_amount - total_principal_paid
(validate_outstanding_balances; not clamped). -/
def principal_outstanding (t : LoanTerms) (a : RepaymentAggregate) : ℚ :=
  t.principal - a.totalPrincipalPaid

/-- expected_interest_outstanding =
max(0, loan_amount * interest_rate - total_interest_paid). -/
def interest_outstanding (t : LoanTerms) (a : RepaymentAggregate) : ℚ :=
  max 0 (t.principal * t.interestRate - a.totalInterestPaid)

/-- expected_fees_outstanding = max(0, fee_amount - total_fees_paid). -/
def fees_outstanding (t : LoanTerms) (a : RepaymentAggregate) : ℚ :=
  max 0 (feeAmount t - a.totalFeesPaid)

/-- expected_total_outstanding = principal + interest + fees outstanding. -/
def total_outstanding (t : LoanTerms) (a : RepaymentAggregate) : ℚ :=
  principal_outstanding t a + interest_outstanding t a + fees_outstanding t a

/-- expected_repayment_days_paid = total_repayments / daily_repayment_amount,
only defined when daily_repayment_amount > 0 (the guard in
validate_business_days_calculations; the spec calls the other case
undefined/zero). -/
def repayment_days_paid (t : LoanTerms) (a : RepaymentAggregate) : Option ℚ :=
  if daily_repayment_amount t > 0 then
    some (a.totalRepayments / daily_repayment_amount t)
  else
    none

/-- The weekday test of count_business_days: current.weekday() < 5, i.e.
Monday to Friday.  Day 0 is a Monday, so the weekday of day d is d % 7. -/
def isBusinessDay (d : ℤ) : Bool :=
  d % 7 < 5

/-- count_business_days(start_date, end_date): returns 0 when either date is
None; otherwise loops current = start .. end counting the days whose weekday
is Monday to Friday.  The loop runs (end - start + 1).toNat times, visiting
day start + i at iteration i. -/
def count_business_days : Option ℤ → Option ℤ → ℕ
  | none, _ => 0
  | _, none => 0
  | some s, some e =>
      ((Finset.range (e - s + 1).toNat).filter (fun (i : ℕ) => isBusinessDay (s + (i : ℤ)))).card

/-- Modelled from the spec: repayment_days_due_today is only read back from
the stored snapshot in the observed code, never computed there; the spec
(section 4.3 and the open question of section 9) fixes it as the business
days elapsed since disbursement, capped at the loan term length. -/
def repayment_days_due_today (t : LoanTerms) (evalDate : ℤ) : ℤ :=
  min ((count_business_days t.disbursementDate (some evalDate) : ℤ)) t.termDays

/-- expected_actual_outstanding (validate_actual_outstanding):
max(0, daily_repayment_amount * repayment_days_due_today - total_repayments)
when both daily_repayment_amount and repayment_days_due_today are truthy
(non-zero), else 0. -/
def actual_outstanding (daily : ℚ) (dueToday : ℤ) (totalRepayments : ℚ) : ℚ :=
  if daily ≠ 0 ∧ dueToday ≠ 0 then max 0 (daily * (dueToday : ℚ) - totalRepayments) else 0

/-- Truncation toward zero, the semantics of the Python int() conversion
applied to repayment_days_paid in validate_dpd_calculations. -/
def truncToward0 (q : ℚ) : ℤ :=
  if 0 ≤ q then ⌊q⌋ else ⌈q⌉

/-- expected_dpd (validate_dpd_calculations):
max(0, repayment_days_due_today - int(repayment_days_paid)) when
actual_outstanding is truthy and > 0, else 0. -/
def current_dpd (actualOut : ℚ) (dueToday : ℤ) (daysPaid : ℚ) : ℤ :=
  if actualOut > 0 then max 0 (dueToday - truncToward0 daysPaid) else 0

/-- expected_early_indicator = 1 <= current_dpd <= 6. -/
def early_indicator_tagged (dpd : ℤ) : Bool :=
  1 ≤ dpd ∧ dpd ≤ 6

/-- expected_rate (validate_repayment_delay_rate), with loan_age and
days_since_last_repayment nullable:
if loan_age and loan_age > 0: averaged formula when a last repayment exists,
else the dpd-only formula; elif loan_age == 0: 0; else None. -/
def repayment_delay_rate (loanAge : Option ℤ) (dpd : ℤ)
    (daysSinceLastRepayment : Option ℤ) : Option ℚ :=
  match loanAge with
  | some la =>
      if la > 0 then
        match daysSinceLastRepayment with
        | some ds =>
            some ((1 - ((((ds : ℚ) + (dpd : ℚ)) / 2) / (la : ℚ)) / (0.25 : ℚ)) * 100)
        | none =>
            some ((1 - ((dpd : ℚ) / (la : ℚ)) / (0.25 : ℚ)) * 100)
      else if la = 0 then some 0
      else none
  | none => none

/-- expected_fimr (validate_fimr_tagging), in the exact case order of the
source: True when first_payment_due_date is None; False when a received date
exists and is on or before the due date; False when no received date exists
and the due date has not passed (due >= today); True otherwise. -/
def fimr_tagged (dueDate recvDate : Option ℤ) (today : ℤ) : Bool :=
  if dueDate.isNone then true
  else if recvDate.isSome ∧ recvDate.getD 0 ≤ dueDate.getD 0 then false
  else if recvDate.isNone ∧ dueDate.getD 0 ≥ today then false
  else true

/-- expected_first_payment_missed (validate_fimr_tagging): when both dates
exist, received > due; when no received date exists, True; else False. -/
def first_payment_missed (dueDate recvDate : Option ℤ) : Bool :=
  if recvDate.isSome ∧ dueDate.isSome then recvDate.getD 0 > dueDate.getD 0
  else if recvDate.isNone then true
  else false

/-- loan_age = (evaluation date - disbursement_date).days, None when there is
no disbursement date (validate_business_days_calculations). -/
def loan_age (t : LoanTerms) (evalDate : ℤ) : Option ℤ :=
  t.disbursementDate.map (fun dd => evalDate - dd)

/-- days_since_last_repayment: days from the most recent non-reversed
repayment to the evaluation date, None when no repayment exists. -/
def days_since_last_repayment (a : RepaymentAggregate) (evalDate : ℤ) : Option ℤ :=
  a.lastRepaymentDate.map (fun d => evalDate - d)

/-- The derived metrics record (the computed columns of the loans table read
by get_metrics_loan_data). -/
structure MetricsSnapshot where
  totalPrincipalPaid : ℚ
  totalInterestPaid : ℚ
  totalFeesPaid : ℚ
  totalRepayments : ℚ
  principalOutstanding : ℚ
  interestOutstanding : ℚ
  feesOutstanding : ℚ
  totalOutstanding : ℚ
  repaymentAmount : ℚ
  dailyRepaymentAmount : ℚ
  repaymentDaysPaid : Option ℚ
  repaymentDaysDueToday : ℤ
  businessDaysSinceDisbursement : ℕ
  actualOutstanding : ℚ
  currentDPD : ℤ
  loanAge : Option ℤ
  daysSinceLastRepayment : Option ℤ
  earlyIndicatorTagged : Bool
  fimrTagged : Bool
  firstPaymentMissed : Bool
  repaymentDelayRate : Option ℚ
deriving Repr, DecidableEq

/-- actual_outstanding evaluated through the pipeline at an evaluation date. -/
def actualOutstandingAt (t : LoanTerms) (a : RepaymentAggregate) (evalDate : ℤ) : ℚ :=
  actual_outstanding (daily_repayment_amount t) (repayment_days_due_today t evalDate)
    a.totalRepayments

/-- current_dpd evaluated through the pipeline at an evaluation date; an
undefined repayment_days_paid enters the formula as zero (the
undefined-or-zero rule of the spec). -/
def currentDPDat (t : LoanTerms) (a : RepaymentAggregate) (evalDate : ℤ) : ℤ :=
  current_dpd (actualOutstandingAt t a evalDate) (repayment_days_due_today t evalDate)
    ((repayment_days_paid t a).getD 0)

/-- Modelled from the spec: the MetricsAssembler (computeSnapshot) itself is
not in the observed sources, only its output columns are; section 4.6 fixes
it as the pure composition RepaymentAggregator, BalanceReconciler,
DelinquencyEngine, DelayRateScorer over LoanTerms, the repayment list and an
explicit evaluation date, assembled into one snapshot.  Each field is the
corresponding formula embedded above from the validation suite. -/
def computeSnapshot (t : LoanTerms) (rs : List Repayment) (evalDate : ℤ) :
    MetricsSnapshot :=
  let a := aggregate rs
  let dpd := currentDPDat t a evalDate
  { totalPrincipalPaid := a.totalPrincipalPaid
    totalInterestPaid := a.totalInterestPaid
    totalFeesPaid := a.totalFeesPaid
    totalRepayments := a.totalRepayments
    principalOutstanding := principal_outstanding t a
    interestOutstanding := interest_outstanding t a
    feesOutstanding := fees_outstanding t a
    totalOutstanding := total_outstanding t a
    repaymentAmount := repayment_amount t
    dailyRepaymentAmount := daily_repayment_amount t
    repaymentDaysPaid := repayment_days_paid t a
    repaymentDaysDueToday := repayment_days_due_today t evalDate
    businessDaysSinceDisbursement := count_business_days t.disbursementDate (some evalDate)
    actualOutstanding := actualOutstandingAt t a evalDate
    currentDPD := dpd
    loanAge := loan_age t evalDate
    daysSinceLastRepayment := days_since_last_repayment a evalDate
    earlyIndicatorTagged := early_indicator_tagged dpd
    fimrTagged := fimr_tagged t.firstPaymentDueDate a.firstRepaymentDate evalDate
    firstPaymentMissed := first_payment_missed t.firstPaymentDueDate a.firstRepaymentDate
    repaymentDelayRate :=
      repayment_delay_rate (loan_age t evalDate) dpd (days_since_last_repayment a evalDate) }

/-! ### Theorems -/

/-- Claim C1: for every LoanTerms and every RepaymentAggregate, the
outstanding balances satisfy principalOutstanding = principal minus
totalPrincipalPaid with no clamping, interestOutstanding =
max(0, principal * interestRate - totalInterestPaid), feesOutstanding =
max(0, fee - totalFeesPaid) with an absent fee treated as 0, and
totalOutstanding is exactly the sum of the three. -/
theorem claim_C1 (t : LoanTerms) (a : RepaymentAggregate) :
    principal_outstanding t a = t.principal - a.totalPrincipalPaid
    ∧ interest_outstanding t a = max 0 (t.principal * t.interestRate - a.totalInterestPaid)
    ∧ fees_outstanding t a = max 0 (t.fee.getD 0 - a.totalFeesPaid)
    ∧ total_outstanding t a
        = principal_outstanding t a + interest_outstanding t a + fees_outstanding t a :=
  ⟨rfl, rfl, rfl, rfl⟩

/-- Claim C10: when firstPaymentDueDate is absent but a first repayment
exists, first_payment_missed is false, while fimr_tagged is true whenever the
due date is absent. -/
theorem claim_C10 (r today : ℤ) :
    first_payment_missed none (some r) = false
    ∧ fimr_tagged none (some r) today = true := by
  constructor
  · simp [first_payment_missed]
  · simp [fimr_tagged]

/-- Claim C2 fails as stated: the source converts repayment_days_paid with
the Python int() conversion, which truncates toward zero, not with floor.
On the loan (principal 100, rate 0, no fee, term 10 days, disbursed on day 0,
a Monday) with a single non-reversed repayment of -15 on day 0, evaluated on
day 0: actual outstanding is 25 > 0, repayment_days_paid is -3/2, and the
computed DPD is max(0, 1 - trunc(-3/2)) = 2, while the claimed floor formula
gives max(0, 1 - floor(-3/2)) = 3. -/
theorem claim_C2_counterexample :
    actualOutstandingAt ⟨100, 0, none, 10, some 0, none⟩
        (aggregate [⟨0, -15, 0, 0, -15, none⟩]) 0 > 0
    ∧ currentDPDat ⟨100, 0, none, 10, some 0, none⟩
        (aggregate [⟨0, -15, 0, 0, -15, none⟩]) 0 = 2
    ∧ max 0 (repayment_days_due_today ⟨100, 0, none, 10, some 0, none⟩ 0
          - ⌊(repayment_days_paid ⟨100, 0, none, 10, some 0, none⟩
                (aggregate [⟨0, -15, 0, 0, -15, none⟩])).getD 0⌋) = 3 := by
  have htot : (aggregate [⟨0, -15, 0, 0, -15, none⟩]).totalRepayments = -15 := by
    norm_num [aggregate, notReversed]
  have hdue : repayment_days_due_today ⟨100, 0, none, 10, some 0, none⟩ 0 = 1 := by decide
  have hdaily : daily_repayment_amount ⟨100, 0, none, 10, some 0, none⟩ = 10 := by
    norm_num [daily_repayment_amount, repayment_amount, feeAmount]
  have hpaid : repayment_days_paid ⟨100, 0, none, 10, some 0, none⟩
      (aggregate [⟨0, -15, 0, 0, -15, none⟩]) = some (-3/2) := by
    rw [repayment_days_paid, hdaily, htot]
    norm_num
  have hact : actualOutstandingAt ⟨100, 0, none, 10, some 0, none⟩
      (aggregate [⟨0, -15, 0, 0, -15, none⟩]) 0 = 25 := by
    rw [actualOutstandingAt, hdaily, hdue, htot]
    norm_num [actual_outstanding]
  have hfl : (⌊(-3/2 : ℚ)⌋ : ℤ) = -2 := by
    rw [Int.floor_eq_iff]
    norm_num
  have htr : truncToward0 (-3/2 : ℚ) = -1 := by
    norm_num [truncToward0, Int.ceil_eq_iff]
  refine ⟨by rw [hact]; norm_num, ?_, ?_⟩
  · rw [currentDPDat, hact, hdue, hpaid]
    simp only [Option.getD_some]
    rw [current_dpd, if_pos (by norm_num : (25:ℚ) > 0), htr]
    norm_num
  · rw [hdue, hpaid]
    simp only [Option.getD_some, hfl]
    norm_num

/-- Claim C2 amended: with the Python int() conversion read as truncation
toward zero (which agrees with floor whenever repayment_days_paid is
nonnegative), the DPD rule holds: when actual outstanding is positive,
current_dpd = max(0, repayment_days_due_today - trunc(repayment_days_paid)),
and otherwise current_dpd = 0 regardless of elapsed time. -/
theorem claim_C2_amended (actualOut : ℚ) (dueToday : ℤ) (daysPaid : ℚ) :
    (actualOut > 0 →
      current_dpd actualOut dueToday daysPaid = max 0 (dueToday - truncToward0 daysPaid))
    ∧ (¬ actualOut > 0 → current_dpd actualOut dueToday daysPaid = 0)
    ∧ (0 ≤ daysPaid → truncToward0 daysPaid = ⌊daysPaid⌋) := by
  refine ⟨fun h => ?_, fun h => ?_, fun h => ?_⟩
  · rw [current_dpd, if_pos h]
  · rw [current_dpd, if_neg h]
  · rw [truncToward0, if_pos h]

theorem claim_C2_amended_witness :
    current_dpd 25 1 (3/2) = max 0 (1 - truncToward0 (3/2))
    ∧ current_dpd 0 1 (3/2) = 0
    ∧ truncToward0 (3/2) = ⌊(3/2 : ℚ)⌋ :=
  ⟨(claim_C2_amended 25 1 (3/2)).1 (by norm_num),
   (claim_C2_amended 0 1 (3/2)).2.1 (by norm_num),
   (claim_C2_amended 25 1 (3/2)).2.2 (by norm_num)⟩

/-- Claim C3: the repayment delay rate follows exactly the source case split:
the averaged formula when the loan has positive age and a last repayment
exists, the dpd-only formula when the loan has positive age and no repayment
was ever made, exactly 0 when the loan age is 0, and null (not zero) when the
loan age is undefined. -/
theorem claim_C3 (la dpd ds : ℤ) (dsOpt : Option ℤ) :
    (la > 0 → repayment_delay_rate (some la) dpd (some ds)
        = some ((1 - ((((ds : ℚ) + (dpd : ℚ)) / 2) / (la : ℚ)) / (0.25 : ℚ)) * 100))
    ∧ (la > 0 → repayment_delay_rate (some la) dpd none
        = some ((1 - ((dpd : ℚ) / (la : ℚ)) / (0.25 : ℚ)) * 100))
    ∧ repayment_delay_rate (some 0) dpd dsOpt = some 0
    ∧ repayment_delay_rate none dpd dsOpt = none := by
  refine ⟨fun h => ?_, fun h => ?_, ?_, rfl⟩
  · simp [repayment_delay_rate, h]
  · simp [repayment_delay_rate, h]
  · norm_num [repayment_delay_rate]

theorem claim_C3_witness :
    repayment_delay_rate (some 10) 2 (some 4)
        = some ((1 - ((((4 : ℚ) + (2 : ℚ)) / 2) / (10 : ℚ)) / (0.25 : ℚ)) * 100)
    ∧ repayment_delay_rate (some 10) 2 none
        = some ((1 - ((2 : ℚ) / (10 : ℚ)) / (0.25 : ℚ)) * 100)
    ∧ repayment_delay_rate (some 0) 2 (some 4) = some 0
    ∧ repayment_delay_rate none 2 (some 4) = none :=
  ⟨(claim_C3 10 2 4 (some 4)).1 (by norm_num),
   (claim_C3 10 2 4 (some 4)).2.1 (by norm_num),
   (claim_C3 10 2 4 (some 4)).2.2.1,
   (claim_C3 10 2 4 (some 4)).2.2.2⟩

/-- Claim C4: fimr_tagged is decided by exactly the source case order: true
when the due date is absent, regardless of repayments; false when a first
repayment exists on or before the due date; false when no repayment exists
and the due date has not yet arrived; true in every remaining case. -/
theorem claim_C4 (d r today : ℤ) (recv : Option ℤ) :
    fimr_tagged none recv today = true
    ∧ (r ≤ d → fimr_tagged (some d) (some r) today = false)
    ∧ (d ≥ today → fimr_tagged (some d) none today = false)
    ∧ (r > d → fimr_tagged (some d) (some r) today = true)
    ∧ (d < today → fimr_tagged (some d) none today = true) := by
  refine ⟨?_, fun h => ?_, fun h => ?_, fun h => ?_, fun h => ?_⟩
  · simp [fimr_tagged]
  · simp [fimr_tagged, h]
  · simp [fimr_tagged, h]
  · simp [fimr_tagged, not_le.mpr h]
  · simp [fimr_tagged, not_le.mpr h]

theorem claim_C4_witness :
    fimr_tagged none (some 3) 9 = true
    ∧ fimr_tagged (some 5) (some 3) 9 = false
    ∧ fimr_tagged (some 5) none 4 = false
    ∧ fimr_tagged (some 5) (some 8) 9 = true
    ∧ fimr_tagged (some 5) none 9 = true :=
  ⟨(claim_C4 5 3 9 (some 3)).1,
   (claim_C4 5 3 9 (some 3)).2.1 (by norm_num),
   (claim_C4 5 3 4 (some 3)).2.2.1 (by norm_num),
   (claim_C4 5 8 9 (some 8)).2.2.2.1 (by norm_num),
   (claim_C4 5 3 9 (some 3)).2.2.2.2 (by norm_num)⟩

/-- Claim C6: when the loan term is nonpositive the daily repayment amount is
defined as zero and repayment_days_paid is undefined (the division is never
reached, both are guarded); when the term is positive the daily repayment
amount is principal * (1 + interestRate) + fee, divided by the term. -/
theorem claim_C6 (t : LoanTerms) (a : RepaymentAggregate) :
    (t.termDays ≤ 0 →
      daily_repayment_amount t = 0 ∧ repayment_days_paid t a = none)
    ∧ (t.termDays > 0 →
      daily_repayment_amount t
        = (t.principal * (1 + t.interestRate) + t.fee.getD 0) / (t.termDays : ℚ)) := by
  constructor
  · intro h
    have hng : ¬ t.termDays > 0 := by omega
    have hd : daily_repayment_amount t = 0 := by rw [daily_repayment_amount, if_neg hng]
    refine ⟨hd, ?_⟩
    rw [repayment_days_paid, if_neg]
    rw [hd]
    norm_num
  · intro h
    rw [daily_repayment_amount, if_pos h, repayment_amount, feeAmount]

theorem claim_C6_witness :
    (daily_repayment_amount ⟨1000, 15/100, some 50, 0, none, none⟩ = 0
      ∧ repayment_days_paid ⟨1000, 15/100, some 50, 0, none, none⟩ (aggregate []) = none)
    ∧ daily_repayment_amount ⟨1000, 15/100, some 50, 30, none, none⟩
        = ((1000 : ℚ) * (1 + 15/100) + (some (50:ℚ)).getD 0) / ((30 : ℤ) : ℚ) :=
  ⟨(claim_C6 ⟨1000, 15/100, some 50, 0, none, none⟩ (aggregate [])).1 (by norm_num),
   (claim_C6 ⟨1000, 15/100, some 50, 30, none, none⟩ (aggregate [])).2 (by norm_num)⟩

/-- The loop of count_business_days visits exactly the days of the inclusive
interval: counting loop iterations i with day start + i a business day is
counting the days d of [start, end] with weekday Monday to Friday. -/
lemma count_business_days_eq_Icc (s e : ℤ) :
    count_business_days (some s) (some e)
      = ((Finset.Icc s e).filter (fun d => d % 7 < 5)).card := by
  show ((Finset.range (e - s + 1).toNat).filter
      (fun (i : ℕ) => isBusinessDay (s + (i : ℤ)))).card = _
  refine Finset.card_nbij' (fun (n : ℕ) => s + (n : ℤ)) (fun (d : ℤ) => (d - s).toNat)
    ?_ ?_ ?_ ?_
  · intro a ha
    simp only [Finset.mem_filter, Finset.mem_range, Finset.mem_Icc, isBusinessDay,
      decide_eq_true_eq] at ha ⊢
    omega
  · intro d hd
    simp only [Finset.mem_filter, Finset.mem_range, Finset.mem_Icc, isBusinessDay,
      decide_eq_true_eq] at hd ⊢
    omega
  · intro a ha
    show (s + (a : ℤ) - s).toNat = a
    omega
  · intro d hd
    simp only [Finset.mem_filter, Finset.mem_Icc] at hd
    show s + ((d - s).toNat : ℤ) = d
    omega

/-- Claim C5: count_business_days returns the number of days of the inclusive
interval whose weekday is Monday to Friday (weekday of day d is d % 7 with
day 0 a Monday, no holiday calendar), and returns 0, not an error, whenever
either date is absent. -/
theorem claim_C5 (s e : ℤ) (o : Option ℤ) :
    count_business_days (some s) (some e)
        = ((Finset.Icc s e).filter (fun d => d % 7 < 5)).card
    ∧ count_business_days none o = 0
    ∧ count_business_days o none = 0 := by
  refine ⟨count_business_days_eq_Icc s e, ?_, ?_⟩ <;> cases o <;> rfl

/-- A later end date never removes counted business days. -/
lemma count_business_days_mono (s : ℤ) {e1 e2 : ℤ} (h : e1 ≤ e2) :
    count_business_days (some s) (some e1) ≤ count_business_days (some s) (some e2) := by
  show (Finset.filter _ _).card ≤ (Finset.filter _ _).card
  apply Finset.card_le_card
  apply Finset.filter_subset_filter
  apply Finset.range_subset.mpr
  omega

/-- A later evaluation date never lowers the accrued installment count. -/
lemma repayment_days_due_today_mono (t : LoanTerms) {d1 d2 : ℤ} (h : d1 ≤ d2) :
    repayment_days_due_today t d1 ≤ repayment_days_due_today t d2 := by
  rw [repayment_days_due_today, repayment_days_due_today]
  cases ht : t.disbursementDate with
  | none => simp [count_business_days]
  | some s =>
    exact min_le_min (by exact_mod_cast count_business_days_mono s h) le_rfl

/-- Claim C7: holding the loan terms and the repayment history fixed, if the
actual outstanding is positive at two evaluation dates d1 <= d2 then the
current DPD at d2 is at least the current DPD at d1. -/
theorem claim_C7 (t : LoanTerms) (a : RepaymentAggregate) (d1 d2 : ℤ)
    (h12 : d1 ≤ d2) (h1 : actualOutstandingAt t a d1 > 0)
    (h2 : actualOutstandingAt t a d2 > 0) :
    currentDPDat t a d1 ≤ currentDPDat t a d2 := by
  rw [currentDPDat, currentDPDat, current_dpd, current_dpd, if_pos h1, if_pos h2]
  exact max_le_max le_rfl (sub_le_sub_right (repayment_days_due_today_mono t h12) _)

theorem claim_C7_witness :
    currentDPDat ⟨100, 0, none, 10, some 0, none⟩ (aggregate []) 0
      ≤ currentDPDat ⟨100, 0, none, 10, some 0, none⟩ (aggregate []) 7 := by
  have htot : (aggregate ([] : List Repayment)).totalRepayments = 0 := by
    norm_num [aggregate]
  have hdaily : daily_repayment_amount ⟨100, 0, none, 10, some 0, none⟩ = 10 := by
    norm_num [daily_repayment_amount, repayment_amount, feeAmount]
  have hdue0 : repayment_days_due_today ⟨100, 0, none, 10, some 0, none⟩ 0 = 1 := by decide
  have hdue7 : repayment_days_due_today ⟨100, 0, none, 10, some 0, none⟩ 7 = 6 := by decide
  have h1 : actualOutstandingAt ⟨100, 0, none, 10, some 0, none⟩ (aggregate []) 0 > 0 := by
    rw [actualOutstandingAt, hdaily, hdue0, htot]
    norm_num [actual_outstanding]
  have h2 : actualOutstandingAt ⟨100, 0, none, 10, some 0, none⟩ (aggregate []) 7 > 0 := by
    rw [actualOutstandingAt, hdaily, hdue7, htot]
    norm_num [actual_outstanding]
  exact claim_C7 ⟨100, 0, none, 10, some 0, none⟩ (aggregate []) 0 7 (by norm_num) h1 h2

/-- Claim C8: computeSnapshot is deterministic: two invocations with equal
loan terms, equal repayment history and the same evaluation date produce
equal snapshots; the evaluation date is an explicit parameter and the
computation is a pure function that reads no clock. -/
theorem claim_C8 (t t' : LoanTerms) (rs rs' : List Repayment) (d d' : ℤ)
    (ht : t = t') (hr : rs = rs') (hd : d = d') :
    computeSnapshot t rs d = computeSnapshot t' rs' d' := by
  rw [ht, hr, hd]

theorem claim_C8_witness :
    computeSnapshot ⟨1000, 15/100, some 50, 30, some 0, some 5⟩ [] 10
      = computeSnapshot ⟨1000, 15/100, some 50, 30, some 0, some 5⟩ [] 10 :=
  claim_C8 ⟨1000, 15/100, some 50, 30, some 0, some 5⟩ ⟨1000, 15/100, some 50, 30, some 0, some 5⟩
    [] [] 10 10 rfl rfl rfl

/-- Claim C9 fails as stated: the delay-rate score has no fixed finite
bounds over the inputs with positive loan age and nonnegative DPD — it is
unbounded below (a large enough DPD drives it under any candidate lower
bound). -/
theorem claim_C9_counterexample :
    ¬ ∃ lo hi : ℚ, ∀ (la dpd : ℤ) (r : ℚ),
        la > 0 → dpd ≥ 0 →
        repayment_delay_rate (some la) dpd none = some r → lo ≤ r ∧ r ≤ hi := by
  rintro ⟨lo, hi, h⟩
  set n : ℤ := max 1 (⌈(100 - lo) / 400⌉ + 1) with hn
  have hn1 : (1:ℤ) ≤ n := le_max_left _ _
  have hnc : ⌈(100 - lo) / 400⌉ + 1 ≤ n := le_max_right _ _
  have heq : repayment_delay_rate (some 1) n none
      = some ((1 - ((n : ℚ) / ((1 : ℤ) : ℚ)) / (0.25 : ℚ)) * 100) := by
    simp [repayment_delay_rate]
  obtain ⟨hlo, -⟩ := h 1 n _ (by norm_num) (by omega) heq
  have hval : (1 - ((n : ℚ) / ((1 : ℤ) : ℚ)) / (0.25 : ℚ)) * 100
      = 100 - 400 * (n : ℚ) := by
    norm_num
    ring
  rw [hval] at hlo
  have hc : ((100 : ℚ) - lo) / 400 ≤ (⌈((100 : ℚ) - lo) / 400⌉ : ℚ) := Int.le_ceil _
  have hcn : ((⌈((100 : ℚ) - lo) / 400⌉ : ℤ) : ℚ) + 1 ≤ (n : ℚ) := by exact_mod_cast hnc
  have hlt : (100 : ℚ) - lo < 400 * (n : ℚ) := by
    have h1 : ((100 : ℚ) - lo) / 400 + 1 ≤ (n : ℚ) := le_trans (by linarith) hcn
    nlinarith
  linarith

/-- Claim C9 amended: for positive loan age, nonnegative current DPD and,
when present, nonnegative days since last repayment, the delay rate never
exceeds 100; it has no finite lower bound. -/
theorem claim_C9_amended (la dpd : ℤ) (dsOpt : Option ℤ) (r : ℚ)
    (hla : la > 0) (hdpd : dpd ≥ 0)
    (hds : ∀ x, dsOpt = some x → x ≥ 0)
    (hr : repayment_delay_rate (some la) dpd dsOpt = some r) :
    r ≤ 100 := by
  have hlaQ : (0:ℚ) < (la : ℚ) := by exact_mod_cast hla
  have hdpdQ : (0:ℚ) ≤ (dpd : ℚ) := by exact_mod_cast hdpd
  cases dsOpt with
  | none =>
    have heq : repayment_delay_rate (some la) dpd none
        = some ((1 - ((dpd : ℚ) / (la : ℚ)) / (0.25 : ℚ)) * 100) := by
      simp [repayment_delay_rate, hla]
    rw [heq, Option.some_inj] at hr
    have hnn : (0:ℚ) ≤ (dpd : ℚ) / (la : ℚ) := div_nonneg hdpdQ hlaQ.le
    have hval : (1 - ((dpd : ℚ) / (la : ℚ)) / (0.25 : ℚ)) * 100
        = 100 - 400 * ((dpd : ℚ) / (la : ℚ)) := by
      norm_num
      ring
    rw [hval] at hr
    linarith [hnn]
  | some ds =>
    have hdsQ : (0:ℚ) ≤ (ds : ℚ) := by exact_mod_cast hds ds rfl
    have heq : repayment_delay_rate (some la) dpd (some ds)
        = some ((1 - ((((ds : ℚ) + (dpd : ℚ)) / 2) / (la : ℚ)) / (0.25 : ℚ)) * 100) := by
      simp [repayment_delay_rate, hla]
    rw [heq, Option.some_inj] at hr
    have hnn : (0:ℚ) ≤ (((ds : ℚ) + (dpd : ℚ)) / 2) / (la : ℚ) :=
      div_nonneg (by linarith) hlaQ.le
    have hval : (1 - ((((ds : ℚ) + (dpd : ℚ)) / 2) / (la : ℚ)) / (0.25 : ℚ)) * 100
        = 100 - 400 * ((((ds : ℚ) + (dpd : ℚ)) / 2) / (la : ℚ)) := by
      norm_num
      ring
    rw [hval] at hr
    linarith [hnn]

theorem claim_C9_amended_witness :
    repayment_delay_rate (some 10) 2 (some 4) = some (-20) ∧ ((-20 : ℚ)) ≤ 100 := by
  have hv : repayment_delay_rate (some 10) 2 (some 4) = some (-20) := by
    norm_num [repayment_delay_rate]
  exact ⟨hv, claim_C9_amended 10 2 (some 4) (-20) (by norm_num) (by norm_num)
    (fun x hx => by injection hx with h; omega) hv⟩

end SeedsMetrics
